import Mathlib

/-!
Verification of the control-loop core of the CXG-60EWT soldering-iron
firmware (`src/main.c`).  The C program is shallowly embedded: the
function-level and file-level `static` variables are gathered into one
`LoopState` record, machine integers are modelled as `Nat`/`Int` with the
16-bit and 32-bit wraparound of the SDCC/STM8 target made explicit, and
hardware effects (PWM write, beeps, display, EEPROM write) are recorded in
an `Effects` record returned by each loop iteration.
-/

namespace STM8

/-! ### Machine-integer helpers (16-bit `int`/`unsigned` on SDCC/STM8) -/

/-- Truncation to `uint16_t`. -/
def w16 (n : Nat) : Nat := n % 65536

/-- Truncation to `uint32_t`. -/
def w32 (n : Nat) : Nat := n % 4294967296

/-- 16-bit wraparound subtraction `a - b` on unsigned values. -/
def sub16 (a b : Nat) : Nat := (a + (65536 - b % 65536)) % 65536

/-- 32-bit wraparound subtraction `a - b` on unsigned values. -/
def sub32 (a b : Nat) : Nat := (a + (4294967296 - b % 4294967296)) % 4294967296

/-- Reinterpretation of a 16-bit pattern as a signed `int16_t`. -/
def toI16 (n : Nat) : Int :=
  if n % 65536 < 32768 then (n % 65536 : Nat) else (n % 65536 : Nat) - 65536

/-- `uint16_t` += a signed increment (`*value += increment` in C). -/
def addW16 (v : Nat) (inc : Int) : Nat := (((v : Int) + inc) % 65536).toNat

/-! ### Constants from `main.c` -/

def SHORT_PRESS : Nat := 700
def LONG_PRESS : Nat := 1800
def FAST_INCREMENT : Nat := 40
def MIN_HEAT : Nat := 50
def MAX_HEAT : Nat := 450
def EEPROM_SAVE_TIMEOUT : Nat := 2000
def HEATPOINT_DISPLAY_DELAY : Nat := 5000
def SLEEP_TEMP : Nat := 100
def MAX_ADC_RT : Nat := 130
def MIN_ADC_RT : Nat := 40

/-- `enum { NOSLEEP, SLEEP, DEEPSLEEP }`. -/
def NOSLEEP : Nat := 0
def SLEEP : Nat := 1
def DEEPSLEEP : Nat := 2

/-! ### Program state

All file-level statics (`_sleepTimer`, `_buttonTimer`, `_longPressTimer`,
`_haveToSaveData`, `_heatPointDisplayTime`, `_eepromData`) together with
the function-level statics of `mainLoop` (`oldSleep`, `oldADCVal`,
`oldADCUI`, `localCnt`), of `checkSleep` (`oldSensorState`) and of
`checkButton` (`skipCounter`, a single static shared by both buttons). -/

structure LoopState where
  oldSleep : Nat := 0
  oldADCVal : Nat := 0
  oldADCUI : Nat := 0
  localCnt : Nat := 0
  oldSensorState : Nat := 0
  skipCounter : Nat := 0
  sleepTimer : Nat := 0
  buttonTimer : Nat := 0
  longPressTimer : Nat := 0
  haveToSaveData : Nat := 0
  heatPointDisplayTime : Nat := 0
  heatPoint : Nat := 0
  sleepTimeout : Nat := 0
  deepSleepTimeout : Nat := 0
  deriving DecidableEq, Repr

/-- External inputs sampled by one `mainLoop` iteration: the millisecond
clock, the two raw ADC channels, the presence-sensor pin, and whether each
button pin reads LOW (pressed). -/
structure LoopInput where
  nowTime : Nat := 0
  rawADCUI : Nat := 0
  rawADCVal : Nat := 0
  sensorPin : Nat := 0
  plusPressed : Bool := false
  minusPressed : Bool := false
  deriving DecidableEq, Repr

/-- Hardware effects produced by one `mainLoop` iteration. -/
structure Effects where
  pwmDuty : Int := 100
  beeps : Nat := 0
  beepAlarms : Nat := 0
  eepromWrite : Bool := false
  erShown : Bool := false
  errDigit : Option Nat := none
  digits : Option (Nat × Nat × Nat) := none
  symTemp : Bool := false
  symMoon : Bool := false
  symSun : Bool := false
  symSave : Bool := false
  deriving DecidableEq, Repr

/-! ### Embedded functions from `main.c` -/

/-- The one-pole noise filter `((old * 3) + raw) >> 2` in 16-bit unsigned
arithmetic (lines 122 and 127). -/
def filterStep (old raw : Nat) : Nat := w16 (old * 3 + raw) / 4

/-- Fault classification of the filtered temperature reading
(line 132): `(adcVal < 10) ? 1 : (adcVal > 1000) ? 2 : 0`. -/
def errorCode (adcVal : Nat) : Nat :=
  if adcVal < 10 then 1 else if adcVal > 1000 then 2 else 0

/-- `checkSleep` (lines 214-233).  Returns the updated state and the
reported sleep level. -/
def checkSleep (s : LoopState) (nowTime sensorState : Nat) : LoopState × Nat :=
  if sensorState ≠ s.oldSensorState then
    ({ s with sleepTimer := nowTime, oldSensorState := sensorState }, NOSLEEP)
  else if sub32 nowTime s.sleepTimer > s.deepSleepTimeout then (s, DEEPSLEEP)
  else if sub32 nowTime s.sleepTimer > s.sleepTimeout then (s, SLEEP)
  else (s, NOSLEEP)

/-- `checkHeatPointValidity` (lines 235-241): clamp into
`[MIN_HEAT, MAX_HEAT]`. -/
def checkHeatPointValidity (hp : Nat) : Nat :=
  let hp1 := if hp > MAX_HEAT then MAX_HEAT else hp
  if hp1 < MIN_HEAT then MIN_HEAT else hp1

/-- `checkButton` (lines 243-271).  `pressed` is `getPin(button) == LOW`;
the `uint16_t *value` argument is always `&_eepromData.heatPoint` in this
program, so the write-through is folded into the state's `heatPoint`.
Returns `(state, action, beeps)` where `action` is the HIGH/LOW return
value and `beeps` counts `beep()` calls. -/
def checkButton (s : LoopState) (pressed : Bool) (increment : Int) (nowTime : Nat) :
    LoopState × Bool × Nat :=
  if pressed then
    let bt := if s.buttonTimer = 0 then nowTime else s.buttonTimer
    let lpt := if s.longPressTimer = 0 then bt else s.longPressTimer
    if sub32 nowTime lpt > LONG_PRESS then
      if s.skipCounter % FAST_INCREMENT = 0 then
        ({ s with buttonTimer := bt, longPressTimer := lpt,
                  skipCounter := (s.skipCounter + 1) % 256,
                  heatPoint := addW16 s.heatPoint increment,
                  haveToSaveData := nowTime,
                  heatPointDisplayTime := w32 (nowTime + HEATPOINT_DISPLAY_DELAY) },
         true, 0)
      else
        ({ s with buttonTimer := bt, longPressTimer := lpt,
                  skipCounter := (s.skipCounter + 1) % 256,
                  heatPointDisplayTime := w32 (nowTime + HEATPOINT_DISPLAY_DELAY) },
         true, 0)
    else if sub32 nowTime bt > SHORT_PRESS then
      ({ s with buttonTimer := 0, longPressTimer := lpt,
                heatPoint := addW16 s.heatPoint increment,
                haveToSaveData := nowTime,
                heatPointDisplayTime := w32 (nowTime + HEATPOINT_DISPLAY_DELAY) },
       true, 1)
    else
      ({ s with buttonTimer := bt, longPressTimer := lpt,
                heatPointDisplayTime := w32 (nowTime + HEATPOINT_DISPLAY_DELAY) },
       true, 0)
  else (s, false, 0)

/-- `checkPendingDataSave` (lines 273-281).  Returns the updated state and
whether an EEPROM write was performed. -/
def checkPendingDataSave (s : LoopState) (nowTime : Nat) : LoopState × Bool :=
  if s.haveToSaveData ≠ 0 ∧ sub32 nowTime s.haveToSaveData > EEPROM_SAVE_TIMEOUT then
    ({ s with haveToSaveData := 0 }, true)
  else (s, false)

/-- Temperature-to-display conversion (line 151), in 16-bit unsigned
wraparound arithmetic:
`(MAX_HEAT - MIN_HEAT) * (adcVal - MIN_ADC_RT) / (MAX_ADC_RT - MIN_ADC_RT)`. -/
def displayValOf (adcVal : Nat) : Nat :=
  w16 ((MAX_HEAT - MIN_HEAT) * sub16 adcVal MIN_ADC_RT) / (MAX_ADC_RT - MIN_ADC_RT)

/-- The signed difference of line 156:
`(sleep == SLEEP) ? SLEEP_TEMP - displayVal : heatPoint - displayVal`,
computed in 16-bit arithmetic and reinterpreted as `int16_t`. -/
def diffOf (sleep hp displayVal : Nat) : Int :=
  if sleep = SLEEP then toI16 (sub16 SLEEP_TEMP displayVal)
  else toI16 (sub16 hp displayVal)

/-- The duty-cycle policy of line 157:
`(sleep == DEEPSLEEP || diff < 0) ? 100 : (diff > 50) ? 50 : 90 - diff`. -/
def pwmOf (sleep : Nat) (diff : Int) : Int :=
  if sleep = DEEPSLEEP ∨ diff < 0 then 100
  else if diff > 50 then 50 else 90 - diff

/-- Effects of the fault short-circuit path (lines 133-141). -/
def faultEffects (e : Nat) : Effects :=
  { pwmDuty := 100, beeps := 1, beepAlarms := 0, eepromWrite := false,
    erShown := true, errDigit := some e, digits := none,
    symTemp := false, symMoon := false, symSun := false, symSave := false }

/-- The non-fault remainder of `mainLoop` (lines 143-202), acting on the
state after the two filters have been updated. -/
def normalIteration (s1 : LoopState) (inp : LoopInput) (adcVal : Nat) :
    LoopState × Effects :=
  let cs := checkSleep s1 inp.nowTime inp.sensorPin
  let sleep := cs.2
  let alarms := if cs.1.oldSleep ≠ sleep then 1 else 0
  let s3 := if cs.1.oldSleep ≠ sleep then { cs.1 with oldSleep := sleep } else cs.1
  let displayVal := displayValOf adcVal
  let diff := diffOf sleep s3.heatPoint displayVal
  let pwmVal := pwmOf sleep diff
  let cb1 := checkButton s3 inp.plusPressed 1 inp.nowTime
  let cb2 := checkButton cb1.1 inp.minusPressed (-1) inp.nowTime
  let action := cb1.2.1 || cb2.2.1
  let s6 := if action then cb2.1 else { cb2.1 with buttonTimer := 0, longPressTimer := 0 }
  let s7 := { s6 with heatPoint := checkHeatPointValidity s6.heatPoint }
  let tempInRange : Bool :=
    decide (sub16 s7.heatPoint 10 ≤ displayVal) && decide (displayVal ≤ w16 (s7.heatPoint + 10))
  let showSet : Bool := action || decide (inp.nowTime < s7.heatPointDisplayTime) || tempInRange
  let shown := if showSet then s7.heatPoint else displayVal
  let symMoon : Bool := decide (sleep ≠ 0) && decide ((s7.localCnt / 500) % 2 = (1 : Nat))
  let symSun : Bool := decide (pwmVal < 100) && decide ((s7.localCnt / 50) % 2 = (1 : Nat))
  let digits := if sleep ≠ DEEPSLEEP then some (shown / 100, shown % 100 / 10, shown % 10) else none
  let psv := checkPendingDataSave s7 inp.nowTime
  let s9 := { psv.1 with localCnt := (psv.1.localCnt + 1) % 65536 }
  (s9,
   { pwmDuty := pwmVal, beeps := cb1.2.2 + cb2.2.2, beepAlarms := alarms,
     eepromWrite := psv.2, erShown := false, errDigit := none,
     digits := digits, symTemp := showSet, symMoon := symMoon, symSun := symSun,
     symSave := psv.2 })

/-- One full `mainLoop` iteration (lines 110-203). -/
def mainIteration (s : LoopState) (inp : LoopInput) : LoopState × Effects :=
  let adcUIn := filterStep s.oldADCUI inp.rawADCUI
  let adcVal := filterStep s.oldADCVal inp.rawADCVal
  let s1 := { s with oldADCUI := adcUIn, oldADCVal := adcVal }
  let error := errorCode adcVal
  if error ≠ 0 then (s1, faultEffects error)
  else normalIteration s1 inp adcVal

/-! ### Simulation of a continuous button hold (for the short-press claim)

One `checkButton` evaluation per millisecond while the button pin stays
LOW, starting at clock value `t0`: step `k` runs at `nowTime = t0 + k`.
Returns the final state and the number of `beep()` calls. -/

def holdRun (s : LoopState) (t0 : Nat) (inc : Int) : Nat → LoopState × Nat
  | 0 => (s, 0)
  | Nat.succ k =>
      let r := holdRun s t0 inc k
      let c := checkButton r.1 true inc (t0 + k)
      (c.1, r.2 + c.2.2)

/-! ### Simulation of the persistence debouncer (for the coalescing claim)

`pendRun s start k` runs `checkPendingDataSave` once per millisecond at
times `start, start+1, …, start+k-1` and collects the `heatPoint` value
contained in each EEPROM write.  `edStep` models the iteration in which a
button edit lands: the edit sets `heatPoint` and stamps
`_haveToSaveData = nowTime` (lines 256-257 / 262-263) before
`checkPendingDataSave` runs later in the same iteration (line 199). -/

def pendRun (s : LoopState) (start : Nat) : Nat → LoopState × List Nat
  | 0 => (s, [])
  | Nat.succ k =>
      let p := checkPendingDataSave s start
      let ws := if p.2 then [s.heatPoint] else []
      let r := pendRun p.1 (start + 1) k
      (r.1, ws ++ r.2)

def edStep (s : LoopState) (t v : Nat) : LoopState × List Nat :=
  let s1 := { s with heatPoint := v, haveToSaveData := t }
  let p := checkPendingDataSave s1 t
  (p.1, if p.2 then [s1.heatPoint] else [])

/-- A sequence of edits after the first one, given as `(gap, value)`
pairs: `gap` milliseconds after the previous edit, the setpoint becomes
`value`.  Between edits the debouncer keeps running every millisecond.
Returns the final state, the time of the last edit, and all EEPROM-write
contents. -/
def editPhase (s : LoopState) (t : Nat) : List (Nat × Nat) → LoopState × Nat × List Nat
  | [] => (s, t, [])
  | gv :: rest =>
      let q := pendRun s (t + 1) (gv.1 - 1)
      let e := edStep q.1 (t + gv.1) gv.2
      let r := editPhase e.1 (t + gv.1) rest
      (r.1, r.2.1, q.2 ++ e.2 ++ r.2.2)

/-- Full coalescing scenario: a first edit to `v1` at time `t1`, further
edits per `edits`, then `quiet` milliseconds with no edits. -/
def saveScenario (s0 : LoopState) (t1 v1 : Nat) (edits : List (Nat × Nat))
    (quiet : Nat) : LoopState × List Nat :=
  let e := edStep s0 t1 v1
  let p := editPhase e.1 t1 edits
  let q := pendRun p.1 (p.2.1 + 1) quiet
  (q.1, e.2 ++ p.2.2 ++ q.2)

/-- Sum of the gaps of an edit list. -/
def sumGaps : List (Nat × Nat) → Nat
  | [] => 0
  | gv :: rest => gv.1 + sumGaps rest

/-- The setpoint value after the last edit of the list (default `v`). -/
def lastVal : List (Nat × Nat) → Nat → Nat
  | [], v => v
  | gv :: rest, _ => lastVal rest gv.2

/-! ### Concrete states used in witnesses and counterexamples -/

/-- State after startup with the documented default configuration. -/
def cs6state : LoopState :=
  { heatPoint := 270, sleepTimeout := 180000, deepSleepTimeout := 600000 }

/-- Both buttons held long enough ago that the auto-repeat (fast) branch
is active at `nowTime = 2000`. -/
def s9state : LoopState :=
  { buttonTimer := 100, longPressTimer := 100, skipCounter := 0, heatPoint := 270 }

/-- A press in progress (timers armed at clock value 5) when the 32-bit
millisecond clock wraps to 0. -/
def s10state : LoopState :=
  { buttonTimer := 5, longPressTimer := 5, skipCounter := 0, heatPoint := 270 }

/-- Idle state (no press in progress) with the default setpoint. -/
def c7state : LoopState := { heatPoint := 270 }

/-! ### Arithmetic helper lemmas -/

theorem sub32_eq {a b : Nat} (h1 : b ≤ a) (h2 : a < 4294967296) :
    sub32 a b = a - b := by
  unfold sub32; omega

theorem sub32_self (a : Nat) : sub32 a a = 0 := by
  unfold sub32; omega

theorem sub16_eq {a b : Nat} (h1 : b ≤ a) (h2 : a < 65536) :
    sub16 a b = a - b := by
  unfold sub16; omega

theorem toI16_sub16 {a b : Nat} (hlo : b ≤ a + 32768) (hhi : a ≤ b + 32767) :
    toI16 (sub16 a b) = (a : Int) - b := by
  unfold toI16 sub16
  split <;> omega

theorem checkHeatPointValidity_bounds (hp : Nat) :
    MIN_HEAT ≤ checkHeatPointValidity hp ∧ checkHeatPointValidity hp ≤ MAX_HEAT := by
  simp only [checkHeatPointValidity, MIN_HEAT, MAX_HEAT]
  split_ifs <;> omega

theorem pwmOf_bounds (sleep : Nat) (diff : Int) :
    40 ≤ pwmOf sleep diff ∧ pwmOf sleep diff ≤ 100 := by
  unfold pwmOf
  split
  · omega
  · rename_i h
    split <;> omega

theorem checkPendingDataSave_heatPoint (s : LoopState) (t : Nat) :
    (checkPendingDataSave s t).1.heatPoint = s.heatPoint := by
  unfold checkPendingDataSave
  split <;> rfl

/-! ### Step lemmas for the persistence debouncer -/

/-- A cleared pending stamp is "no save pending": no write, no change. -/
theorem checkPendingDataSave_zero (s : LoopState) (now : Nat)
    (h : s.haveToSaveData = 0) : checkPendingDataSave s now = (s, false) := by
  unfold checkPendingDataSave
  rw [if_neg (by simp [h])]

/-- Inside the 2000 ms window nothing is written. -/
theorem checkPendingDataSave_hold (s : LoopState) (now : Nat)
    (h : ¬ sub32 now s.haveToSaveData > EEPROM_SAVE_TIMEOUT) :
    checkPendingDataSave s now = (s, false) := by
  unfold checkPendingDataSave
  rw [if_neg (fun hc => h hc.2)]

/-- A pending stamp older than the timeout triggers one write and clears
the stamp. -/
theorem checkPendingDataSave_write (s : LoopState) (now : Nat)
    (h1 : s.haveToSaveData ≠ 0)
    (h2 : sub32 now s.haveToSaveData > EEPROM_SAVE_TIMEOUT) :
    checkPendingDataSave s now = ({ s with haveToSaveData := 0 }, true) := by
  unfold checkPendingDataSave
  rw [if_pos ⟨h1, h2⟩]

/-- An edit iteration sets the new value and stamps the pending save; the
debouncer does not fire in the same iteration (elapsed time 0). -/
theorem edStep_run (s : LoopState) (t v : Nat) :
    edStep s t v = ({ s with heatPoint := v, haveToSaveData := t }, []) := by
  simp only [edStep]
  rw [checkPendingDataSave_hold ({ s with heatPoint := v, haveToSaveData := t }) t
        (show ¬ sub32 t t > EEPROM_SAVE_TIMEOUT by rw [sub32_self]; decide)]
  simp

/-- With no pending save the debouncer does nothing, forever. -/
theorem pendRun_pending0 (s : LoopState) (h : s.haveToSaveData = 0) :
    ∀ (start k : Nat), pendRun s start k = (s, []) := by
  intro start k
  induction k generalizing start with
  | zero => rfl
  | succ n ih =>
    simp only [pendRun]
    rw [checkPendingDataSave_zero s start h]
    rw [ih (start + 1)]
    simp

/-- While every elapsed time since the stamp stays at most 2000 ms, the
debouncer neither writes nor changes state. -/
theorem pendRun_quiet (s : LoopState) (p : Nat) (hp : s.haveToSaveData = p) :
    ∀ (start k : Nat), p ≤ start → start + k ≤ p + 2001 →
      start + k ≤ 4294967296 → pendRun s start k = (s, []) := by
  intro start k
  induction k generalizing start with
  | zero => intro _ _ _; rfl
  | succ n ih =>
    intro h1 h2 h3
    simp only [pendRun]
    rw [checkPendingDataSave_hold s start
         (by rw [hp, sub32_eq h1 (by omega)]; simp only [EEPROM_SAVE_TIMEOUT]; omega)]
    rw [ih (start + 1) (by omega) (by omega) (by omega)]
    simp

/-- Unfolding lemma for one debouncer millisecond. -/
theorem pendRun_succ (s : LoopState) (start k : Nat) :
    pendRun s start (k + 1) =
      ((pendRun (checkPendingDataSave s start).1 (start + 1) k).1,
       (if (checkPendingDataSave s start).2 then [s.heatPoint] else []) ++
         (pendRun (checkPendingDataSave s start).1 (start + 1) k).2) := rfl

/-- A debouncer run splits into two consecutive runs. -/
theorem pendRun_split :
    ∀ (a : Nat) (s : LoopState) (start b : Nat),
      pendRun s start (a + b) =
        ((pendRun (pendRun s start a).1 (start + a) b).1,
         (pendRun s start a).2 ++ (pendRun (pendRun s start a).1 (start + a) b).2) := by
  intro a
  induction a with
  | zero =>
    intro s start b
    rw [Nat.zero_add, show pendRun s start 0 = (s, []) from rfl, Nat.add_zero]
    rfl
  | succ n ih =>
    intro s start b
    rw [show n + 1 + b = (n + b) + 1 by omega]
    simp only [pendRun]
    rw [ih (checkPendingDataSave s start).1 (start + 1) b]
    rw [show start + 1 + n = start + (n + 1) by omega]
    simp only [List.append_assoc]

/-- A pending stamp `p ≠ 0` followed by at least 2001 quiet milliseconds
produces exactly one write — of the `heatPoint` current at write time —
and clears the stamp. -/
theorem pendRun_flush (s : LoopState) (p k : Nat) (hp : s.haveToSaveData = p)
    (hpnz : p ≠ 0) (hk : 2001 ≤ k) (hb : p + 1 + k ≤ 4294967296) :
    pendRun s (p + 1) k = ({ s with haveToSaveData := 0 }, [s.heatPoint]) := by
  rw [show k = 2000 + ((k - 2001) + 1) by omega]
  rw [pendRun_split 2000 s (p + 1) ((k - 2001) + 1)]
  rw [pendRun_quiet s p hp (p + 1) 2000 (by omega) (by omega) (by omega)]
  rw [pendRun_succ]
  rw [checkPendingDataSave_write s (p + 1 + 2000) (by rw [hp]; exact hpnz)
        (by rw [hp, sub32_eq (by omega) (by omega)]; simp only [EEPROM_SAVE_TIMEOUT]; omega)]
  rw [pendRun_pending0 ({ s with haveToSaveData := 0 }) rfl (p + 1 + 2000 + 1) (k - 2001)]
  simp

/-- During the edit phase (gaps of 1 to 1999 ms between stamps) nothing
is ever written; the state just tracks the last edit. -/
theorem editPhase_run :
    ∀ (edits : List (Nat × Nat)) (s : LoopState) (t : Nat),
      s.haveToSaveData = t → t ≠ 0 →
      (∀ gv ∈ edits, 1 ≤ gv.1 ∧ gv.1 ≤ 1999) →
      t + sumGaps edits ≤ 4294967295 →
      editPhase s t edits =
        ({ s with heatPoint := lastVal edits s.heatPoint,
                  haveToSaveData := t + sumGaps edits },
         t + sumGaps edits, []) := by
  intro edits
  induction edits with
  | nil =>
    intro s t hp htnz _ _
    simp only [editPhase, sumGaps, lastVal, Nat.add_zero]
    rw [← hp]
  | cons gv rest ih =>
    intro s t hp htnz hgaps hbound
    have hgv := hgaps gv (List.mem_cons_self _ _)
    have hsg : sumGaps (gv :: rest) = gv.1 + sumGaps rest := rfl
    rw [hsg] at hbound
    simp only [editPhase]
    rw [pendRun_quiet s t hp (t + 1) (gv.1 - 1) (by omega) (by omega) (by omega)]
    rw [edStep_run]
    rw [ih ({ s with heatPoint := gv.2, haveToSaveData := t + gv.1 }) (t + gv.1) rfl
          (by omega) (fun x hx => hgaps x (List.mem_cons_of_mem _ hx)) (by omega)]
    simp only [lastVal, sumGaps]
    simp [Nat.add_assoc]

/-! ### Claim theorems -/

/-- C1: for every filtered temperature reading `r` produced in an
iteration, `r < 10` gives fault code 1 (sensor shorted), `r > 1000` gives
fault code 2 (sensor open/broken), and `10 ≤ r ≤ 1000` gives no fault. -/
theorem fault_classification (r : Nat) :
    (r < 10 → errorCode r = 1) ∧
    (1000 < r → errorCode r = 2) ∧
    (10 ≤ r → r ≤ 1000 → errorCode r = 0) := by
  unfold errorCode
  refine ⟨fun h => ?_, fun h => ?_, fun h1 h2 => ?_⟩ <;> split_ifs <;> omega

/-- Witness for C1 at the concrete readings 5, 2000 and 500. -/
theorem fault_classification_witness :
    errorCode 5 = 1 ∧ errorCode 2000 = 2 ∧ errorCode 500 = 0 :=
  ⟨(fault_classification 5).1 (by decide),
   (fault_classification 2000).2.1 (by decide),
   (fault_classification 500).2.2 (by decide) (by decide)⟩

/-- C2: on every iteration whose filtered temperature reading is out of
range, the PWM duty is forced to 100 (heater off), the display shows the
"ER" label with the numeric fault code, one beep is sounded, no EEPROM
write happens, and the iteration returns early, leaving the setpoint, the
sleep timer, both button timers and the pending-save stamp unchanged. -/
theorem fault_iteration_frame (s : LoopState) (inp : LoopInput)
    (herr : errorCode (filterStep s.oldADCVal inp.rawADCVal) ≠ 0) :
    (mainIteration s inp).1.heatPoint = s.heatPoint ∧
    (mainIteration s inp).1.sleepTimer = s.sleepTimer ∧
    (mainIteration s inp).1.buttonTimer = s.buttonTimer ∧
    (mainIteration s inp).1.longPressTimer = s.longPressTimer ∧
    (mainIteration s inp).1.haveToSaveData = s.haveToSaveData ∧
    (mainIteration s inp).2.pwmDuty = 100 ∧
    (mainIteration s inp).2.erShown = true ∧
    (mainIteration s inp).2.errDigit = some (errorCode (filterStep s.oldADCVal inp.rawADCVal)) ∧
    (mainIteration s inp).2.beeps = 1 ∧
    (mainIteration s inp).2.eepromWrite = false := by
  unfold mainIteration
  simp [if_pos herr, faultEffects]

/-- Witness for C2: from the all-zero power-on state, a raw temperature
sample of 5 filters to 1 and trips fault code 1. -/
theorem fault_iteration_frame_witness :
    (mainIteration {} { rawADCVal := 5 }).2.pwmDuty = 100 ∧
    (mainIteration {} { rawADCVal := 5 }).2.errDigit = some 1 :=
  ⟨(fault_iteration_frame {} { rawADCVal := 5 } (by decide)).2.2.2.2.2.1,
   by
     have h := (fault_iteration_frame {} { rawADCVal := 5 } (by decide)).2.2.2.2.2.2.2.1
     simpa using h⟩

/-- C3: on every non-fault iteration the duty written to the PWM driver
lies in `[40, 100]`, for every state (hence every sleep level and every
setpoint) and every input, with the 16-bit wraparound arithmetic of the
temperature conversion taken into account. -/
theorem pwm_duty_bounds (s : LoopState) (inp : LoopInput)
    (hok : errorCode (filterStep s.oldADCVal inp.rawADCVal) = 0) :
    40 ≤ (mainIteration s inp).2.pwmDuty ∧ (mainIteration s inp).2.pwmDuty ≤ 100 := by
  have h : ¬ (errorCode (filterStep s.oldADCVal inp.rawADCVal) ≠ 0) := by simp [hok]
  unfold mainIteration
  simp only [if_neg h]
  unfold normalIteration
  exact pwmOf_bounds _ _

/-- Witness for C3: an in-range reading (raw sample 400 from the zero
state filters to 100) on the power-on state. -/
theorem pwm_duty_bounds_witness :
    40 ≤ (mainIteration {} { rawADCVal := 400 }).2.pwmDuty ∧
    (mainIteration {} { rawADCVal := 400 }).2.pwmDuty ≤ 100 :=
  pwm_duty_bounds {} { rawADCVal := 400 } (by decide)

/-- C5: after every completed non-fault iteration the setpoint lies in
`[50, 450]`, no matter what the button edits (or any other mutation)
did to it during the iteration. -/
theorem heatPoint_invariant (s : LoopState) (inp : LoopInput)
    (hok : errorCode (filterStep s.oldADCVal inp.rawADCVal) = 0) :
    MIN_HEAT ≤ (mainIteration s inp).1.heatPoint ∧
    (mainIteration s inp).1.heatPoint ≤ MAX_HEAT := by
  have h : ¬ (errorCode (filterStep s.oldADCVal inp.rawADCVal) ≠ 0) := by simp [hok]
  unfold mainIteration
  simp only [if_neg h]
  unfold normalIteration
  simp only [checkPendingDataSave_heatPoint]
  exact checkHeatPointValidity_bounds _

/-- Witness for C5: power-on state with an in-range reading; the zero
setpoint is clamped up to 50. -/
theorem heatPoint_invariant_witness :
    MIN_HEAT ≤ (mainIteration {} { rawADCVal := 400 }).1.heatPoint ∧
    (mainIteration {} { rawADCVal := 400 }).1.heatPoint ≤ MAX_HEAT :=
  heatPoint_invariant {} { rawADCVal := 400 } (by decide)

/-- In the ramp region `0 ≤ diff ≤ 50` (and outside deep sleep) the duty
is `90 - diff`. -/
theorem pwmOf_ramp {sleep : Nat} {d : Int} (hs : sleep ≠ DEEPSLEEP)
    (h0 : 0 ≤ d) (h50 : d ≤ 50) : pwmOf sleep d = 90 - d := by
  unfold pwmOf
  rw [if_neg (not_or.mpr ⟨hs, by omega⟩), if_neg (by omega)]

/-- Past the target (`diff < 0`) the duty is 100. -/
theorem pwmOf_off {sleep : Nat} {d : Int} (hneg : d < 0) :
    pwmOf sleep d = 100 := by
  unfold pwmOf
  rw [if_pos (Or.inr hneg)]

/-! ### Step lemmas for `checkButton` under a continuous hold -/

/-- First evaluation of a press: both global timers are armed with the
current time and nothing fires. -/
theorem checkButton_first (s : LoopState) (inc : Int) (now : Nat)
    (hbt : s.buttonTimer = 0) (hlpt : s.longPressTimer = 0) :
    checkButton s true inc now =
      ({ s with buttonTimer := now, longPressTimer := now,
                heatPointDisplayTime := w32 (now + HEATPOINT_DISPLAY_DELAY) }, true, 0) := by
  unfold checkButton
  simp only [if_true, if_pos hbt, if_pos hlpt, sub32_self]
  rw [if_neg (by decide), if_neg (by decide)]

/-- Evaluation with both timers armed and neither threshold passed:
only the display deadline moves. -/
theorem checkButton_idle (s : LoopState) (inc : Int) (now : Nat)
    (hbt : s.buttonTimer ≠ 0) (hlpt : s.longPressTimer ≠ 0)
    (hlong : ¬ sub32 now s.longPressTimer > LONG_PRESS)
    (hshort : ¬ sub32 now s.buttonTimer > SHORT_PRESS) :
    checkButton s true inc now =
      ({ s with heatPointDisplayTime := w32 (now + HEATPOINT_DISPLAY_DELAY) }, true, 0) := by
  unfold checkButton
  simp only [if_true, if_neg hbt, if_neg hlpt, if_neg hlong, if_neg hshort]

/-- Evaluation that trips the short-press branch: the edit is applied,
the pending save is stamped, the press-start timer is cleared and one
beep is sounded. -/
theorem checkButton_fire (s : LoopState) (inc : Int) (now : Nat)
    (hbt : s.buttonTimer ≠ 0) (hlpt : s.longPressTimer ≠ 0)
    (hlong : ¬ sub32 now s.longPressTimer > LONG_PRESS)
    (hshort : sub32 now s.buttonTimer > SHORT_PRESS) :
    checkButton s true inc now =
      ({ s with buttonTimer := 0,
                heatPoint := addW16 s.heatPoint inc,
                haveToSaveData := now,
                heatPointDisplayTime := w32 (now + HEATPOINT_DISPLAY_DELAY) }, true, 1) := by
  unfold checkButton
  simp only [if_true, if_neg hbt, if_neg hlpt, if_neg hlong, if_pos hshort]

/-- Re-arming evaluation right after a short-press fire: `buttonTimer`
is 0 again, so it is re-armed with the current time while the long-press
timer keeps its original value. -/
theorem checkButton_rearm (s : LoopState) (inc : Int) (now : Nat)
    (hbt : s.buttonTimer = 0) (hlpt : s.longPressTimer ≠ 0)
    (hlong : ¬ sub32 now s.longPressTimer > LONG_PRESS) :
    checkButton s true inc now =
      ({ s with buttonTimer := now,
                heatPointDisplayTime := w32 (now + HEATPOINT_DISPLAY_DELAY) }, true, 0) := by
  unfold checkButton
  simp only [if_true, if_pos hbt, if_neg hlpt, if_neg hlong, sub32_self]
  rw [if_neg (by decide)]

/-! ### Phase characterisation of a continuous hold from the idle state -/

/-- Phase A (steps 1 to 701, clock `t0` to `t0 + 700`): timers armed at
`t0`, no edit, no beep. -/
theorem holdRun_phaseA (s0 : LoopState) (t0 : Nat) (inc : Int)
    (hbt : s0.buttonTimer = 0) (hlpt : s0.longPressTimer = 0)
    (ht0 : 1 ≤ t0) (hbound : t0 + 1402 < 4294967296) :
    ∀ k, 1 ≤ k → k ≤ 701 →
      holdRun s0 t0 inc k =
        ({ s0 with buttonTimer := t0, longPressTimer := t0,
                   heatPointDisplayTime := w32 (t0 + (k - 1) + HEATPOINT_DISPLAY_DELAY) }, 0) := by
  intro k
  induction k with
  | zero => omega
  | succ n ih =>
    intro _ h2
    rcases Nat.eq_zero_or_pos n with hn | hn
    · subst hn
      simp only [holdRun, Nat.add_zero]
      rw [checkButton_first s0 inc t0 hbt hlpt]
      simp
    · have ihe := ih hn (by omega)
      have hb : t0 + n < 4294967296 := by omega
      simp only [holdRun, ihe]
      rw [checkButton_idle _ inc (t0 + n) (show t0 ≠ 0 by omega) (show t0 ≠ 0 by omega)
            (show ¬ sub32 (t0 + n) t0 > LONG_PRESS by
              rw [sub32_eq (by omega) hb]; simp only [LONG_PRESS]; omega)
            (show ¬ sub32 (t0 + n) t0 > SHORT_PRESS by
              rw [sub32_eq (by omega) hb]; simp only [SHORT_PRESS]; omega)]
      simp only [Nat.add_sub_cancel, Nat.zero_add, Nat.add_zero]

/-- Unfolding lemma for one simulated millisecond of a hold. -/
theorem holdRun_succ (s : LoopState) (t0 : Nat) (inc : Int) (k : Nat) :
    holdRun s t0 inc (k + 1) =
      ((checkButton (holdRun s t0 inc k).1 true inc (t0 + k)).1,
       (holdRun s t0 inc k).2 +
         (checkButton (holdRun s t0 inc k).1 true inc (t0 + k)).2.2) := rfl

/-- Phase B (step 702, clock `t0 + 701`): the short-press branch fires —
one edit, one beep, pending save stamped, press-start timer cleared. -/
theorem holdRun_phaseB (s0 : LoopState) (t0 : Nat) (inc : Int)
    (hbt : s0.buttonTimer = 0) (hlpt : s0.longPressTimer = 0)
    (ht0 : 1 ≤ t0) (hbound : t0 + 1402 < 4294967296) :
    holdRun s0 t0 inc 702 =
      ({ s0 with buttonTimer := 0, longPressTimer := t0,
                 heatPoint := addW16 s0.heatPoint inc,
                 haveToSaveData := t0 + 701,
                 heatPointDisplayTime := w32 (t0 + 701 + HEATPOINT_DISPLAY_DELAY) }, 1) := by
  have hA := holdRun_phaseA s0 t0 inc hbt hlpt ht0 hbound 701 (by omega) (by omega)
  show holdRun s0 t0 inc (701 + 1) = _
  rw [holdRun_succ, hA]
  rw [checkButton_fire _ inc (t0 + 701) (show t0 ≠ 0 by omega) (show t0 ≠ 0 by omega)
        (show ¬ sub32 (t0 + 701) t0 > LONG_PRESS by
          rw [sub32_eq (by omega) (by omega)]; simp only [LONG_PRESS]; omega)
        (show sub32 (t0 + 701) t0 > SHORT_PRESS by
          rw [sub32_eq (by omega) (by omega)]; simp only [SHORT_PRESS]; omega)]
  simp

/-- Phase C (steps 703 to 1403): the press-start timer was re-armed at
`t0 + 702`; no further fire while `now - (t0 + 702) ≤ 700` and the
long-press threshold is still out of reach. -/
theorem holdRun_phaseC (s0 : LoopState) (t0 : Nat) (inc : Int)
    (hbt : s0.buttonTimer = 0) (hlpt : s0.longPressTimer = 0)
    (ht0 : 1 ≤ t0) (hbound : t0 + 1402 < 4294967296) :
    ∀ k, 703 ≤ k → k ≤ 1403 →
      holdRun s0 t0 inc k =
        ({ s0 with buttonTimer := t0 + 702, longPressTimer := t0,
                   heatPoint := addW16 s0.heatPoint inc,
                   haveToSaveData := t0 + 701,
                   heatPointDisplayTime := w32 (t0 + (k - 1) + HEATPOINT_DISPLAY_DELAY) }, 1) := by
  intro k
  induction k with
  | zero => omega
  | succ n ih =>
    intro h1 h2
    rcases Nat.lt_or_ge n 703 with hn | hn
    · have hn702 : n = 702 := by omega
      subst hn702
      have hstep := checkButton_rearm
          ({ s0 with buttonTimer := 0, longPressTimer := t0,
                     heatPoint := addW16 s0.heatPoint inc,
                     haveToSaveData := t0 + 701,
                     heatPointDisplayTime := w32 (t0 + 701 + HEATPOINT_DISPLAY_DELAY) })
          inc (t0 + 702) rfl (show t0 ≠ 0 by omega)
          (show ¬ sub32 (t0 + 702) t0 > LONG_PRESS by
            rw [sub32_eq (by omega) (by omega)]; simp only [LONG_PRESS]; omega)
      rw [holdRun_succ, holdRun_phaseB s0 t0 inc hbt hlpt ht0 hbound, hstep]
      simp
    · have ihe := ih hn (by omega)
      have hstep := checkButton_idle
          ({ s0 with buttonTimer := t0 + 702, longPressTimer := t0,
                     heatPoint := addW16 s0.heatPoint inc,
                     haveToSaveData := t0 + 701,
                     heatPointDisplayTime := w32 (t0 + (n - 1) + HEATPOINT_DISPLAY_DELAY) })
          inc (t0 + n) (show t0 + 702 ≠ 0 by omega) (show t0 ≠ 0 by omega)
          (show ¬ sub32 (t0 + n) t0 > LONG_PRESS by
            rw [sub32_eq (by omega) (by omega)]; simp only [LONG_PRESS]; omega)
          (show ¬ sub32 (t0 + n) (t0 + 702) > SHORT_PRESS by
            rw [sub32_eq (by omega) (by omega)]; simp only [SHORT_PRESS]; omega)
      rw [holdRun_succ, ihe, hstep]
      simp only [Nat.add_sub_cancel, Nat.add_zero]

/-- Phase D (step 1404, clock `t0 + 1403`): still 397 ms short of the
long-press threshold, the short-press branch fires a SECOND time. -/
theorem holdRun_phaseD (s0 : LoopState) (t0 : Nat) (inc : Int)
    (hbt : s0.buttonTimer = 0) (hlpt : s0.longPressTimer = 0)
    (ht0 : 1 ≤ t0) (hbound : t0 + 1403 < 4294967296) :
    holdRun s0 t0 inc 1404 =
      ({ s0 with buttonTimer := 0, longPressTimer := t0,
                 heatPoint := addW16 (addW16 s0.heatPoint inc) inc,
                 haveToSaveData := t0 + 1403,
                 heatPointDisplayTime := w32 (t0 + 1403 + HEATPOINT_DISPLAY_DELAY) }, 2) := by
  have hC := holdRun_phaseC s0 t0 inc hbt hlpt ht0 (by omega) 1403 (by omega) (by omega)
  have hstep := checkButton_fire
      ({ s0 with buttonTimer := t0 + 702, longPressTimer := t0,
                 heatPoint := addW16 s0.heatPoint inc,
                 haveToSaveData := t0 + 701,
                 heatPointDisplayTime := w32 (t0 + (1403 - 1) + HEATPOINT_DISPLAY_DELAY) })
      inc (t0 + 1403) (show t0 + 702 ≠ 0 by omega) (show t0 ≠ 0 by omega)
      (show ¬ sub32 (t0 + 1403) t0 > LONG_PRESS by
        rw [sub32_eq (by omega) (by omega)]; simp only [LONG_PRESS]; omega)
      (show sub32 (t0 + 1403) (t0 + 702) > SHORT_PRESS by
        rw [sub32_eq (by omega) (by omega)]; simp only [SHORT_PRESS]; omega)
  show holdRun s0 t0 inc (1403 + 1) = _
  rw [holdRun_succ, hC, hstep]
  simp

/-- C8: whenever the pending-save stamp is set and more than 2000 ms have
elapsed since it, exactly one write of the configuration record is
performed and the stamp is cleared; consequently, a first edit at
`t1 ≥ 1` followed by any number of edits each 1 to 1999 ms apart and then
at least 2001 quiet milliseconds produces exactly one EEPROM write,
containing only the final setpoint value, after which no save is
pending. -/
theorem save_coalescing (s0 : LoopState) (t1 v1 quiet : Nat)
    (edits : List (Nat × Nat)) (ht1 : 1 ≤ t1)
    (hgaps : ∀ gv ∈ edits, 1 ≤ gv.1 ∧ gv.1 ≤ 1999)
    (hq : 2001 ≤ quiet)
    (hb : t1 + sumGaps edits + 1 + quiet ≤ 4294967296) :
    (∀ (s : LoopState) (now : Nat),
        s.haveToSaveData ≠ 0 → sub32 now s.haveToSaveData > EEPROM_SAVE_TIMEOUT →
        checkPendingDataSave s now = ({ s with haveToSaveData := 0 }, true)) ∧
    (saveScenario s0 t1 v1 edits quiet).2 = [lastVal edits v1] ∧
    (saveScenario s0 t1 v1 edits quiet).1.haveToSaveData = 0 ∧
    (saveScenario s0 t1 v1 edits quiet).1.heatPoint = lastVal edits v1 := by
  refine ⟨fun s now h1 h2 => checkPendingDataSave_write s now h1 h2, ?_⟩
  have e1 := edStep_run s0 t1 v1
  have e2 := editPhase_run edits ({ s0 with heatPoint := v1, haveToSaveData := t1 }) t1 rfl
        (by omega) hgaps (by omega)
  have e3 := pendRun_flush
        ({ s0 with heatPoint := lastVal edits v1, haveToSaveData := t1 + sumGaps edits })
        (t1 + sumGaps edits) quiet rfl (by omega) hq (by omega)
  simp only [saveScenario, e1, e2, e3, List.nil_append]
  exact ⟨trivial, trivial, trivial⟩

/-- Witness for C8: two edits (value 300 at clock 5, value 301 at
clock 105) followed by 2001 quiet milliseconds yield exactly one write,
of the final value 301, and clear the pending stamp. -/
theorem save_coalescing_witness :
    (saveScenario {} 5 300 [(100, 301)] 2001).2 = [301] ∧
    (saveScenario {} 5 300 [(100, 301)] 2001).1.haveToSaveData = 0 := by
  have h := save_coalescing {} 5 300 2001 [(100, 301)] (by omega)
      (by decide) (by omega) (by decide)
  refine ⟨?_, h.2.2.1⟩
  rw [h.2.1]
  rfl

/-- C7 amended: a button held continuously (1 ms iteration cadence,
press first sampled at clock `t0 ≥ 1`) fires the short-press branch
exactly once — one setpoint step, one beep, one pending save stamped at
`t0 + 701` — provided the hold spans at least 702 and at most 1403
samples, i.e. it lasts past the 700 ms threshold but is released before
the re-armed press-start timer completes a second 700 ms window at
`t0 + 1403` (which still precedes the 1800 ms long-press threshold).
An 800 ms hold is such a case. -/
theorem short_press_single_fire (s0 : LoopState) (t0 d : Nat) (inc : Int)
    (hbt : s0.buttonTimer = 0) (hlpt : s0.longPressTimer = 0)
    (ht0 : 1 ≤ t0) (hbound : t0 + 1402 < 4294967296)
    (hd1 : 702 ≤ d) (hd2 : d ≤ 1403) :
    (holdRun s0 t0 inc d).1.heatPoint = addW16 s0.heatPoint inc ∧
    (holdRun s0 t0 inc d).2 = 1 ∧
    (holdRun s0 t0 inc d).1.haveToSaveData = t0 + 701 ∧
    (holdRun s0 t0 inc d).1.haveToSaveData ≠ 0 := by
  rcases Nat.eq_or_lt_of_le hd1 with he | hlt
  · rw [← he, holdRun_phaseB s0 t0 inc hbt hlpt ht0 hbound]
    exact ⟨rfl, rfl, rfl, show t0 + 701 ≠ 0 by omega⟩
  · rw [holdRun_phaseC s0 t0 inc hbt hlpt ht0 hbound d (by omega) hd2]
    exact ⟨rfl, rfl, rfl, show t0 + 701 ≠ 0 by omega⟩

/-- Witness for the amended C7: an 800 ms hold starting at clock 1000
from the idle state with setpoint 270 yields setpoint 271, one beep and
a pending save. -/
theorem short_press_single_fire_witness :
    (holdRun c7state 1000 1 800).1.heatPoint = 271 ∧
    (holdRun c7state 1000 1 800).2 = 1 ∧
    (holdRun c7state 1000 1 800).1.haveToSaveData = 1701 := by
  have h := short_press_single_fire c7state 1000 800 1 rfl rfl (by omega)
    (by omega) (by omega) (by omega)
  refine ⟨?_, h.2.1, h.2.2.1⟩
  rw [h.1]
  decide

/-- C7, as stated, is false: a hold of 1404 samples (within the claimed
"longer than 700 ms but shorter than 1800 ms" range) fires the
short-press branch TWICE — the press-start timer is re-armed after the
first fire at `t0 + 702` and a second 700 ms window completes at
`t0 + 1403`, so the setpoint moves by two steps and two beeps sound. -/
theorem short_press_double_fire :
    (holdRun c7state 1000 1 1404).1.heatPoint = 272 ∧
    (holdRun c7state 1000 1 1404).2 = 2 := by
  have h := holdRun_phaseD c7state 1000 1 rfl rfl (by omega) (by omega)
  rw [h]
  refine ⟨?_, rfl⟩
  decide

/-- C4, as stated, is false: with sleep state `NOSLEEP` and target 270,
raising the measured temperature from 220 to 221 (both still below the
target, `diff ≥ 0`) raises the duty from 40 to 41, so the duty is not
non-increasing in the measured temperature before `diff` turns negative. -/
theorem duty_monotonic_counterexample :
    ¬ (∀ T1 T2 : Nat, T1 ≤ T2 → 0 ≤ diffOf NOSLEEP 270 T2 →
        pwmOf NOSLEEP (diffOf NOSLEEP 270 T2) ≤ pwmOf NOSLEEP (diffOf NOSLEEP 270 T1)) := by
  intro h
  exact absurd (h 220 221 (by decide) (by decide)) (by decide)

/-- C4 amended: for a fixed sleep state (not deep sleep) and fixed target,
within the final 50-unit approach band (`0 ≤ diff = target - T ≤ 50`) the
duty equals `90 - diff` exactly, hence it is non-DEcreasing as the
measured temperature rises toward the target (the heater power
`100 - duty` ramps down), and once the measured temperature passes the
target (`diff < 0`) the duty jumps to 100.  Each of these clauses is a
conjunct below: the exact ramp value at both band temperatures, the
non-decreasing direction, and the jump. -/
theorem duty_ramp_behavior (sleep hp tgt T1 T2 T3 : Nat)
    (htgt : tgt = if sleep = SLEEP then SLEEP_TEMP else hp)
    (hsd : sleep ≠ DEEPSLEEP) (htb : tgt < 32768)
    (h12 : T1 ≤ T2) (h2t : T2 ≤ tgt) (hband : tgt - T1 ≤ 50)
    (h3 : tgt < T3) (h3b : T3 ≤ tgt + 32768) :
    pwmOf sleep (diffOf sleep hp T1) = 90 - ((tgt : Int) - T1) ∧
    pwmOf sleep (diffOf sleep hp T2) = 90 - ((tgt : Int) - T2) ∧
    pwmOf sleep (diffOf sleep hp T1) ≤ pwmOf sleep (diffOf sleep hp T2) ∧
    pwmOf sleep (diffOf sleep hp T3) = 100 := by
  have hd : ∀ T : Nat, diffOf sleep hp T = toI16 (sub16 tgt T) := by
    intro T
    unfold diffOf
    by_cases hS : sleep = SLEEP <;> simp [hS, htgt]
  simp only [hd]
  rw [toI16_sub16 (by omega) (by omega), toI16_sub16 (by omega) (by omega),
      toI16_sub16 (by omega) (by omega)]
  rw [pwmOf_ramp hsd (by omega) (by omega), pwmOf_ramp hsd (by omega) (by omega),
      pwmOf_off (by omega)]
  exact ⟨rfl, rfl, by omega, rfl⟩

/-- Witness for the amended C4 at sleep `NOSLEEP`, target 270,
temperatures 220 ≤ 225 ≤ 270 < 271: duty 40 at `diff = 50`, duty 45 at
`diff = 45`, non-decreasing between them, and 100 past the target. -/
theorem duty_ramp_behavior_witness :
    pwmOf NOSLEEP (diffOf NOSLEEP 270 220) = 40 ∧
    pwmOf NOSLEEP (diffOf NOSLEEP 270 225) = 45 ∧
    pwmOf NOSLEEP (diffOf NOSLEEP 270 220) ≤ pwmOf NOSLEEP (diffOf NOSLEEP 270 225) ∧
    pwmOf NOSLEEP (diffOf NOSLEEP 270 271) = 100 := by
  have h := duty_ramp_behavior NOSLEEP 270 270 220 225 271 (by decide) (by decide)
    (by decide) (by decide) (by decide) (by decide) (by decide) (by decide)
  exact ⟨by rw [h.1]; decide, by rw [h.2.1]; decide, h.2.2.1, h.2.2.2⟩

/-- C6, as stated, is false at the exact boundary instants: after a
presence toggle at `t0 = 1000` with the default timeouts, the code
reports `NOSLEEP` (not `SLEEP`) at `t = t0 + sleepTimeout = 181000`, and
`SLEEP` (not `DEEPSLEEP`) at `t = t0 + deepSleepTimeout = 601000`,
because both comparisons in `checkSleep` are strict. -/
theorem sleep_boundary_counterexample :
    (checkSleep (checkSleep cs6state 1000 1).1 181000 1).2 ≠ SLEEP ∧
    (checkSleep (checkSleep cs6state 1000 1).1 601000 1).2 ≠ DEEPSLEEP := by
  decide

/-- C6 amended: after a presence-pin toggle at `t0` (which itself reports
`NOSLEEP`) and no further toggles, the reported state is `NOSLEEP` for
`t ≤ t0 + sleepTimeout`, `SLEEP` for
`t0 + sleepTimeout < t ≤ t0 + deepSleepTimeout`, and `DEEPSLEEP` for
`t > t0 + deepSleepTimeout` — the boundary instants themselves still
report the earlier state. -/
theorem sleep_state_regions (s : LoopState) (p t0 t : Nat)
    (htoggle : p ≠ s.oldSensorState)
    (h0 : t0 ≤ t) (hb : t < 4294967296)
    (hord : s.sleepTimeout ≤ s.deepSleepTimeout) :
    (checkSleep s t0 p).2 = NOSLEEP ∧
    (t ≤ t0 + s.sleepTimeout → (checkSleep (checkSleep s t0 p).1 t p).2 = NOSLEEP) ∧
    (t0 + s.sleepTimeout < t → t ≤ t0 + s.deepSleepTimeout →
        (checkSleep (checkSleep s t0 p).1 t p).2 = SLEEP) ∧
    (t0 + s.deepSleepTimeout < t → (checkSleep (checkSleep s t0 p).1 t p).2 = DEEPSLEEP) := by
  unfold checkSleep
  rw [if_pos htoggle]
  simp only [ne_eq, not_true_eq_false, if_false, ite_not]
  rw [sub32_eq h0 hb]
  refine ⟨trivial, fun h => ?_, fun h1 h2 => ?_, fun h => ?_⟩ <;>
    split_ifs <;>
    simp only [NOSLEEP, SLEEP, DEEPSLEEP] <;>
    omega

/-- Witness for the amended C6: with the default timeouts and a toggle at
`t0 = 1000`, the state at `t = 200000` is `SLEEP`. -/
theorem sleep_state_regions_witness :
    (checkSleep (checkSleep cs6state 1000 1).1 200000 1).2 = SLEEP :=
  (sleep_state_regions cs6state 1 1000 200000 (by decide) (by decide)
    (by decide) (by decide)).2.2.1 (by decide) (by decide)

/-- C9, as stated, is false: `skipCounter` is a single function-level
static shared by both buttons.  From `s9state` (both buttons in the
auto-repeat regime at `nowTime = 2000`), evaluating the PLUS button's
auto-repeat step changes the counter that the MINUS button's evaluation
then reads (0 to 1); consequently the MINUS button right after the PLUS
step applies no decrement, whereas from the same state without the PLUS
step it would fire. -/
theorem shared_skip_counter_counterexample :
    (checkButton s9state true 1 2000).1.skipCounter ≠ s9state.skipCounter ∧
    (checkButton (checkButton s9state true 1 2000).1 true (-1) 2000).1.heatPoint =
      (checkButton s9state true 1 2000).1.heatPoint ∧
    (checkButton s9state true (-1) 2000).1.heatPoint ≠ s9state.heatPoint := by
  decide

/-- C9 amended: both buttons share one static `skipCounter` (as well as
the global press timers); an auto-repeat evaluation for either button
(any increment) bumps that one shared counter by 1 (mod 256), so it does
not leave the counter read by the other button unchanged. -/
theorem shared_skip_counter_increment (s : LoopState) (inc : Int) (now : Nat)
    (h : sub32 now (if s.longPressTimer = 0
                    then (if s.buttonTimer = 0 then now else s.buttonTimer)
                    else s.longPressTimer) > LONG_PRESS) :
    (checkButton s true inc now).1.skipCounter = (s.skipCounter + 1) % 256 := by
  unfold checkButton
  simp only [if_true]
  rw [if_pos h]
  split_ifs <;> rfl

/-- Witness for the amended C9 at `s9state`. -/
theorem shared_skip_counter_increment_witness :
    (checkButton s9state true 1 2000).1.skipCounter = 1 := by
  have h := shared_skip_counter_increment s9state 1 2000 (by decide)
  simpa using h

/-- C10: every applied setpoint edit stamps `_haveToSaveData` with the
current clock value — so an edit in an iteration where the clock reads
exactly 0 stamps 0 — and the persistence debouncer treats a stamp of 0 as
"no save pending" and never writes; the edit is persisted only if a later
edit re-arms the stamp at a non-zero time. -/
theorem zero_time_edit_unsaved :
    (∀ (s : LoopState) (inc : Int) (now : Nat),
        (checkButton s true inc now).1.heatPoint ≠ s.heatPoint →
        (checkButton s true inc now).1.haveToSaveData = now) ∧
    (∀ (s : LoopState) (now : Nat), s.haveToSaveData = 0 →
        checkPendingDataSave s now = (s, false)) := by
  constructor
  · intro s inc now hchg
    unfold checkButton at hchg ⊢
    simp only [if_true] at hchg ⊢
    split_ifs at hchg ⊢ <;> simp_all
  · intro s now h
    unfold checkPendingDataSave
    rw [if_neg (by simp [h])]

/-- Witness for C10: a press armed at clock 5 fires when the 32-bit clock
reads 0 (wraparound makes both elapsed-time tests succeed); the edit is
applied but the stamp becomes 0 and the debouncer never writes. -/
theorem zero_time_edit_unsaved_witness :
    (checkButton s10state true 1 0).1.haveToSaveData = 0 ∧
    checkPendingDataSave { s10state with haveToSaveData := 0 } 999999 =
      ({ s10state with haveToSaveData := 0 }, false) :=
  ⟨zero_time_edit_unsaved.1 s10state 1 0 (by decide),
   zero_time_edit_unsaved.2 _ 999999 rfl⟩

end STM8
